import Mathlib

/-!
Shallow embedding of the risk-analyzer core of the repository
(`src/app/api/tools/risk-analyzer/code-analyzer.ts` and
`src/app/api/tools/risk-analyzer/risk-calculator.ts`), together with
theorems settling the specification claims about it.

JavaScript numbers are modelled as exact rationals; the `parseFloat`
boundary (which can produce NaN or Infinity) is modelled by an explicit
`JsNum` type.  JavaScript regular expressions used by the analyzer are
modelled by an executable Brzozowski-derivative matcher over `List Char`,
with `test`-style (match-anywhere) semantics, plus a dedicated search for
the one pattern that uses a negative lookahead.
-/

namespace RiskAnalyzer

/-- Characters accepted by the JavaScript regex class \s. -/
def isJsSpace (c : Char) : Bool :=
  c = ' ' || c = '\t' || c = '\n' || c = '\r' ||
  c.val = 11 || c.val = 12 || c.val = 160 || c.val = 0x1680 ||
  (0x2000 ≤ c.val && c.val ≤ 0x200a) || c.val = 0x2028 || c.val = 0x2029 ||
  c.val = 0x202f || c.val = 0x205f || c.val = 0x3000 || c.val = 0xfeff

/-- Characters accepted by the JavaScript regex class \w. -/
def isWordChar (c : Char) : Bool :=
  ('a' ≤ c && c ≤ 'z') || ('A' ≤ c && c ≤ 'Z') || ('0' ≤ c && c ≤ '9') || c = '_'

/-- JavaScript line terminators (excluded by the regex metacharacter `.`). -/
def isLineTerm (c : Char) : Bool :=
  c = '\n' || c = '\r' || c.val = 0x2028 || c.val = 0x2029

/-- Decimal digit test, as in the regex class [0-9]. -/
def isDig (c : Char) : Bool := '0' ≤ c && c ≤ '9'

/-- The character left brace. -/
def lbrace : Char := Char.ofNat 123

/-- The character right brace. -/
def rbrace : Char := Char.ofNat 125

/-- The double-quote character. -/
def dquote : Char := Char.ofNat 34

/-- The single-quote character. -/
def squote : Char := Char.ofNat 39

/-- Regular expressions over characters, with character classes given by a
Boolean predicate.  This is the fragment used by the analyzer's patterns;
the one negative lookahead in the source is handled separately by
`Regex.lookFound`. -/
inductive Regex : Type
  | fail : Regex
  | eps : Regex
  | cls : (Char → Bool) → Regex
  | cat : Regex → Regex → Regex
  | alt : Regex → Regex → Regex
  | star : Regex → Regex

/-- Smart concatenation, simplifying the failure and empty regexes. -/
def Regex.mkCat : Regex → Regex → Regex
  | .fail, _ => .fail
  | .eps, b => b
  | _, .fail => .fail
  | a, .eps => a
  | a, b => .cat a b

/-- Smart alternation, simplifying the failure regex. -/
def Regex.mkAlt : Regex → Regex → Regex
  | .fail, b => b
  | a, .fail => a
  | a, b => .alt a b

/-- Does the regex accept the empty string? -/
def Regex.nullable : Regex → Bool
  | .fail => false
  | .eps => true
  | .cls _ => false
  | .cat a b => a.nullable && b.nullable
  | .alt a b => a.nullable || b.nullable
  | .star _ => true

/-- Brzozowski derivative with respect to one character. -/
def Regex.step : Regex → Char → Regex
  | .fail, _ => .fail
  | .eps, _ => .fail
  | .cls f, c => if f c then .eps else .fail
  | .cat a b, c =>
      if a.nullable then .mkAlt (.mkCat (a.step c) b) (b.step c)
      else .mkCat (a.step c) b
  | .alt a b, c => .mkAlt (a.step c) (b.step c)
  | .star a, c => .mkCat (a.step c) (.star a)

/-- Does some prefix of the list match the regex? -/
def Regex.fromHere : Regex → List Char → Bool
  | .fail, _ => false
  | r, [] => r.nullable
  | r, c :: s => r.nullable || (r.step c).fromHere s

/-- Does the regex match somewhere in the list?  This is the semantics of
JavaScript `RegExp.test` for the lookahead-free patterns. -/
def Regex.found : Regex → List Char → Bool
  | r, [] => r.nullable
  | r, c :: s => r.fromHere (c :: s) || r.found s

/-- All suffixes `t` of the input such that the regex matches the part of
the input strictly before `t`. -/
def Regex.tails : Regex → List Char → List (List Char)
  | .fail, _ => []
  | r, [] => if r.nullable then [[]] else []
  | r, c :: s => (if r.nullable then [c :: s] else []) ++ (r.step c).tails s

/-- Search for a match of `a` that is not immediately followed by a match
of `b`: the semantics of JavaScript `RegExp.test` for a pattern of the
shape `a(?!b)`. -/
def Regex.lookFound (a b : Regex) : List Char → Bool
  | [] => (a.tails []).any fun t => ! b.fromHere t
  | c :: s => ((a.tails (c :: s)).any fun t => ! b.fromHere t) || a.lookFound b s

/-- Regex matching one given character. -/
def Regex.chr (c : Char) : Regex := .cls fun x => x = c

/-- Regex matching one given character case-insensitively. -/
def Regex.chrCI (c : Char) : Regex := .cls fun x => x.toLower = c.toLower

/-- Regex matching a literal string. -/
def Regex.str (s : String) : Regex := s.data.foldr (fun c r => .cat (.chr c) r) .eps

/-- Regex matching a literal string case-insensitively (regex flag i). -/
def Regex.strCI (s : String) : Regex := s.data.foldr (fun c r => .cat (.chrCI c) r) .eps

/-- The regex \s. -/
def Regex.ws : Regex := .cls isJsSpace

/-- The regex \s*. -/
def Regex.wsStar : Regex := .star .ws

/-- The regex \s+. -/
def Regex.wsPlus : Regex := .cat .ws .wsStar

/-- The regex \w*. -/
def Regex.wcStar : Regex := .star (.cls isWordChar)

/-- The regex \w+. -/
def Regex.wcPlus : Regex := .cat (.cls isWordChar) .wcStar

/-- The regex metacharacter `.` (any character except a line terminator). -/
def Regex.anyDot : Regex := .cls fun c => ! isLineTerm c

/-- The regex class [\s\S] (any character at all). -/
def Regex.anyCh : Regex := .cls fun _ => true

/-- The regex r?. -/
def Regex.opt (r : Regex) : Regex := .alt .eps r

/-- Concatenation of a list of regexes. -/
def Regex.catList (l : List Regex) : Regex := l.foldr .cat .eps

/-- Match-anywhere test on a string. -/
def Regex.test (r : Regex) (s : String) : Bool := r.found s.data

/-- Is the first list a prefix of the second? -/
def beginsWith : List Char → List Char → Bool
  | [], _ => true
  | _ :: _, [] => false
  | n :: ns, h :: hs => n = h && beginsWith ns hs

/-- Does the second list contain the first as a contiguous sublist? -/
def hasSub (n : List Char) : List Char → Bool
  | [] => n.isEmpty
  | c :: t => beginsWith n (c :: t) || hasSub n t

/-- JavaScript `s.includes(pat)`. -/
def jsIncludes (s pat : String) : Bool := hasSub pat.data s.data

/-- Remainder of the list just after the first block-comment close, if
any; used for the global replace of /\*[\s\S]*?\*/ by the empty string. -/
def afterBlockClose : List Char → Option (List Char)
  | [] => none
  | '*' :: '/' :: t => some t
  | _ :: t => afterBlockClose t

/-- Fuelled left-to-right scan for the global replace of block comments
(/\*[\s\S]*?\*/) by the empty string.  The fuel only serves structural
termination: every recursive call drops at least one character, so any
fuel of at least the list length gives the scan's fixed point. -/
def stripBlockCommentsF : ℕ → List Char → List Char
  | 0, l => l
  | _ + 1, [] => []
  | f + 1, '/' :: '*' :: t =>
      match afterBlockClose t with
      | some r => stripBlockCommentsF f r
      | none => '/' :: '*' :: t
  | f + 1, c :: t => c :: stripBlockCommentsF f t

/-- The global replace of block comments (/\*[\s\S]*?\*/) by the empty
string, scanning left to right as JavaScript `String.replace` does. -/
def stripBlockComments (l : List Char) : List Char := stripBlockCommentsF l.length l

/-- Fuelled scan for the global multiline replace of line comments
(//.*$) by the empty string.  The flag records whether the scan is
currently inside a line comment. -/
def stripLineCommentsF : ℕ → Bool → List Char → List Char
  | 0, _, l => l
  | _ + 1, _, [] => []
  | f + 1, false, '/' :: '/' :: t => stripLineCommentsF f true t
  | f + 1, false, c :: t => c :: stripLineCommentsF f false t
  | f + 1, true, c :: t =>
      if isLineTerm c then c :: stripLineCommentsF f false t
      else stripLineCommentsF f true t

/-- The global multiline replace of line comments (//.*$) by the empty
string. -/
def stripLineComments (l : List Char) : List Char := stripLineCommentsF l.length false l

/-- Remainder of the list just after the next occurrence of the quote
character, if any. -/
def afterQuote (q : Char) : List Char → Option (List Char)
  | [] => none
  | c :: t => if c = q then some t else afterQuote q t

/-- Fuelled scan for the global replace of a quote-delimited literal
(for instance /"[^"]*"/ by an empty literal consisting of the two quote
characters), scanning left to right. -/
def squashQuotedF (q : Char) : ℕ → List Char → List Char
  | 0, l => l
  | _ + 1, [] => []
  | f + 1, c :: t =>
      if c = q then
        match afterQuote q t with
        | some r => q :: q :: squashQuotedF q f r
        | none => c :: t
      else c :: squashQuotedF q f t

/-- The global replace of a quote-delimited literal by an empty literal,
scanning left to right. -/
def squashQuoted (q : Char) (l : List Char) : List Char := squashQuotedF q l.length l

/-- A JavaScript number as produced by `parseFloat`: NaN, a signed
infinity, or a finite value (modelled exactly as a rational). -/
inductive JsNum : Type
  | nan : JsNum
  | inf : Bool → JsNum
  | num : ℚ → JsNum
deriving DecidableEq

/-- The comparison `x > q` on a `parseFloat` result: false for NaN,
decided by sign for infinities. -/
def JsNum.gtNum : JsNum → ℚ → Bool
  | .nan, _ => false
  | .inf neg, _ => ! neg
  | .num v, q => q < v

/-- JavaScript `Math.min` on two exact numbers, written so that the
kernel can evaluate it. -/
def minQ (a b : ℚ) : ℚ := if a ≤ b then a else b

/-- JavaScript `Math.max` on two exact numbers, written so that the
kernel can evaluate it. -/
def maxQ (a b : ℚ) : ℚ := if a ≤ b then b else a

/-- Kernel-evaluable power of ten. -/
def tenPow : ℕ → ℚ
  | 0 => 1
  | n + 1 => 10 * tenPow n

/-- Kernel-evaluable integer power of ten. -/
def tenPowZ : ℤ → ℚ
  | .ofNat n => tenPow n
  | .negSucc n => 1 / (10 * tenPow n)

/-- Numeric value of a digit character. -/
def digitVal (c : Char) : ℕ := c.toNat - 48

/-- Value of a list of decimal digit characters. -/
def digitsToNat (l : List Char) : ℕ := l.foldl (fun a c => 10 * a + digitVal c) 0

/-- Parse the longest valid decimal-literal prefix after sign handling:
`Infinity`, or digits with optional fraction and optional exponent.
Returns NaN when no digits are present, as `parseFloat` does. -/
def parseFloatCore (neg : Bool) (l : List Char) : JsNum :=
  if beginsWith ("Infinity").data l then .inf neg
  else
    let intDigits := l.takeWhile isDig
    let rest1 := l.dropWhile isDig
    let fracDigits :=
      match rest1 with
      | '.' :: t => t.takeWhile isDig
      | _ => []
    let rest2 :=
      match rest1 with
      | '.' :: t => t.dropWhile isDig
      | _ => rest1
    if intDigits.isEmpty && fracDigits.isEmpty then .nan
    else
      let mant : ℚ :=
        (digitsToNat intDigits : ℚ) + (digitsToNat fracDigits : ℚ) / tenPow fracDigits.length
      let e : ℤ :=
        match rest2 with
        | c :: t =>
            if c = 'e' || c = 'E' then
              match t with
              | '+' :: u => if (u.takeWhile isDig).isEmpty then 0 else (digitsToNat (u.takeWhile isDig) : ℤ)
              | '-' :: u => if (u.takeWhile isDig).isEmpty then 0 else -(digitsToNat (u.takeWhile isDig) : ℤ)
              | u => if (u.takeWhile isDig).isEmpty then 0 else (digitsToNat (u.takeWhile isDig) : ℤ)
            else 0
        | [] => 0
      let v := mant * tenPowZ e
      .num (if neg then -v else v)

/-- JavaScript `parseFloat`: skip leading whitespace, handle an optional
sign, then parse the longest valid numeric-literal prefix. -/
def parseFloat (s : String) : JsNum :=
  match s.data.dropWhile isJsSpace with
  | '+' :: t => parseFloatCore false t
  | '-' :: t => parseFloatCore true t
  | t => parseFloatCore false t

/-- JavaScript `o || d` on an optional string: `undefined` and the empty
string are falsy and yield the default. -/
def jsOrElse (o : Option String) (d : String) : String :=
  match o with
  | none => d
  | some s => if s = "" then d else s

/-- JavaScript string interpolation of an optional string value. -/
def jsShow (o : Option String) : String :=
  match o with
  | none => "undefined"
  | some s => s

/-! Patterns of `analyzeSolidityCode` (code-analyzer.ts), one definition
per JavaScript regular expression, in source order. -/

/-- The pattern /selfdestruct\s*\(|suicide\s*\(/. -/
def selfdestructPat : Regex :=
  .alt (.catList [.str ("selfdestruct"), .wsStar, .chr ('(')])
       (.catList [.str ("suicide"), .wsStar, .chr ('(')])

/-- The pattern /delegatecall\s*\(/. -/
def delegatecallPat : Regex := .catList [.str ("delegatecall"), .wsStar, .chr ('(')]

/-- The pattern /unchecked\s*\{/. -/
def uncheckedPat : Regex := .catList [.str ("unchecked"), .wsStar, .chr lbrace]

/-- The pattern /\.call\s*\{[^}]*value\s*:/. -/
def callValuePat : Regex :=
  .catList [.chr ('.'), .str ("call"), .wsStar, .chr lbrace,
            .star (.cls fun c => c ≠ rbrace), .str ("value"), .wsStar, .chr (':')]

/-- The pattern /nonReentrant|ReentrancyGuard|mutex/. -/
def reentrancyGuardPat : Regex :=
  .alt (.str ("nonReentrant")) (.alt (.str ("ReentrancyGuard")) (.str ("mutex")))

/-- The pattern /onlyOwner|onlyAdmin|AccessControl|require\s*\(\s*msg\.sender\s*==/. -/
def accessControlPat : Regex :=
  .alt (.str ("onlyOwner"))
    (.alt (.str ("onlyAdmin"))
      (.alt (.str ("AccessControl"))
        (.catList [.str ("require"), .wsStar, .chr ('('), .wsStar,
                   .str ("msg.sender"), .wsStar, .str ("==")])))

/-- The pattern /pausable|pause\(\)|unpause\(\)|whenNotPaused/. -/
def pausablePat : Regex :=
  .alt (.str ("pausable"))
    (.alt (.str ("pause()")) (.alt (.str ("unpause()")) (.str ("whenNotPaused"))))

/-- The body /\.call\s*\([^)]*\)/ of the unchecked-low-level-call
pattern, whose negative lookahead is `uncheckedCallNeg`. -/
def uncheckedCallPat : Regex :=
  .catList [.chr ('.'), .str ("call"), .wsStar, .chr ('('),
            .star (.cls fun c => c ≠ ')'), .chr (')')]

/-- The negative lookahead (?!\s*;\s*require\() of the
unchecked-low-level-call pattern. -/
def uncheckedCallNeg : Regex :=
  .catList [.wsStar, .chr (';'), .wsStar, .str ("require"), .chr ('(')]

/-- The pattern /tx\.origin\s*==|msg\.sender\s*==\s*tx\.origin/. -/
def txOriginPat : Regex :=
  .alt (.catList [.str ("tx.origin"), .wsStar, .str ("==")])
       (.catList [.str ("msg.sender"), .wsStar, .str ("=="), .wsStar, .str ("tx.origin")])

/-- The pattern /function\s+\w*[mM]int\w*\s*\([^)]*\)\s+(private|internal)/. -/
def hiddenMintPat : Regex :=
  .catList [.str ("function"), .wsPlus, .wcStar, .cls (fun c => c = 'm' || c = 'M'),
            .str ("int"), .wcStar, .wsStar, .chr ('('),
            .star (.cls fun c => c ≠ ')'), .chr (')'), .wsPlus,
            .alt (.str ("private")) (.str ("internal"))]

/-- The pattern /onlyOwner.*\{[^}]*(_mint\(|transfer\()/. -/
def adminMintPat : Regex :=
  .catList [.str ("onlyOwner"), .star .anyDot, .chr lbrace,
            .star (.cls fun c => c ≠ rbrace),
            .alt (.str ("_mint(")) (.str ("transfer("))]

/-- The pattern /upgradeTo\(|upgradeToAndCall\(/. -/
def upgradePat : Regex := .alt (.str ("upgradeTo(")) (.str ("upgradeToAndCall("))

/-- The pattern /mapping\s*\([^)]*\)\s+\w*[bB]lacklist/. -/
def blacklistPat : Regex :=
  .catList [.str ("mapping"), .wsStar, .chr ('('),
            .star (.cls fun c => c ≠ ')'), .chr (')'), .wsPlus, .wcStar,
            .cls (fun c => c = 'b' || c = 'B'), .str ("lacklist")]

/-- The pattern /pragma\s+solidity\s+\^?0\.[0-7]\./. -/
def oldPragmaPat : Regex :=
  .catList [.str ("pragma"), .wsPlus, .str ("solidity"), .wsPlus,
            .opt (.chr ('^')), .str ("0."),
            .cls (fun c => '0' ≤ c && c ≤ '7'), .chr ('.')]

/-- The pattern /assembly\s*\{/. -/
def assemblyPat : Regex := .catList [.str ("assembly"), .wsStar, .chr lbrace]

/-- The result record of `analyzeSolidityCode`. -/
structure CodeAnalysis where
  hasSelfDestruct : Bool
  hasDelegateCall : Bool
  hasUncheckedMath : Bool
  hasReentrancyRisk : Bool
  hasAccessControl : Bool
  hasPausable : Bool
  criticalVulnerabilities : List String
  majorRisks : List String
  minorRisks : List String
deriving DecidableEq

/-- `analyzeSolidityCode` of code-analyzer.ts: regex flags and the three
severity lists, with the early return on falsy (empty) input. -/
def analyzeSolidityCode (sourceCode : String) : CodeAnalysis :=
  if sourceCode = "" then
    { hasSelfDestruct := false
      hasDelegateCall := false
      hasUncheckedMath := false
      hasReentrancyRisk := false
      hasAccessControl := false
      hasPausable := false
      criticalVulnerabilities := []
      majorRisks := []
      minorRisks := [] }
  else
    let src := sourceCode.data
    let hasSelfDestruct := selfdestructPat.found src
    let hasDelegateCall := delegatecallPat.found src
    let hasUncheckedMath := uncheckedPat.found src
    let hasReentrancyRisk := callValuePat.found src && ! reentrancyGuardPat.found src
    let hasAccessControl := accessControlPat.found src
    let hasPausable := pausablePat.found src
    let criticalVulnerabilities :=
      (if uncheckedCallPat.lookFound uncheckedCallNeg src then
        ["Unchecked low-level call - return value not verified"] else []) ++
      (if txOriginPat.found src then
        ["Using tx.origin for authorization (phishing vulnerability)"] else []) ++
      (if hasReentrancyRisk then
        ["Potential reentrancy vulnerability in external calls"] else [])
    let majorRisks :=
      (if hiddenMintPat.found src then ["Hidden mint function detected"] else []) ++
      (if adminMintPat.found src then ["Admin can mint tokens or transfer user funds"] else []) ++
      (if upgradePat.found src then ["Upgradeable contract - admin can change logic"] else []) ++
      (if blacklistPat.found src then ["Contract can blacklist addresses"] else [])
    let minorRisks :=
      (if oldPragmaPat.found src then ["Using outdated Solidity version"] else []) ++
      (if assemblyPat.found src then ["Uses inline assembly - increased complexity"] else [])
    { hasSelfDestruct := hasSelfDestruct
      hasDelegateCall := hasDelegateCall
      hasUncheckedMath := hasUncheckedMath
      hasReentrancyRisk := hasReentrancyRisk
      hasAccessControl := hasAccessControl
      hasPausable := hasPausable
      criticalVulnerabilities := criticalVulnerabilities
      majorRisks := majorRisks
      minorRisks := minorRisks }

/-! Patterns of `isTokenContract` (code-analyzer.ts).  All carry the
case-insensitive flag i. -/

/-- The pattern
/(?:contract\s+\w+\s+(?:is\s+.*?)?(?:IERC20|ERC20))|(?:interface\s+(?:IERC20|ERC20))/i. -/
def erc20InterfacePattern : Regex :=
  .alt
    (.catList [.strCI ("contract"), .wsPlus, .wcPlus, .wsPlus,
               .opt (.catList [.strCI ("is"), .wsPlus, .star .anyDot]),
               .alt (.strCI ("IERC20")) (.strCI ("ERC20"))])
    (.catList [.strCI ("interface"), .wsPlus,
               .alt (.strCI ("IERC20")) (.strCI ("ERC20"))])

/-- The pattern
/function\s+transfer\s*\(\s*address\s+\w*,?\s*uint256\s+\w*\s*\)\s*(?:external|public)/i. -/
def transferPat : Regex :=
  .catList [.strCI ("function"), .wsPlus, .strCI ("transfer"), .wsStar, .chr ('('),
            .wsStar, .strCI ("address"), .wsPlus, .wcStar, .opt (.chr (',')),
            .wsStar, .strCI ("uint256"), .wsPlus, .wcStar, .wsStar, .chr (')'),
            .wsStar, .alt (.strCI ("external")) (.strCI ("public"))]

/-- The pattern
/function\s+transferFrom\s*\(\s*address\s+\w*,?\s*address\s+\w*,?\s*uint256\s+\w*\s*\)\s*(?:external|public)/i. -/
def transferFromPat : Regex :=
  .catList [.strCI ("function"), .wsPlus, .strCI ("transferFrom"), .wsStar, .chr ('('),
            .wsStar, .strCI ("address"), .wsPlus, .wcStar, .opt (.chr (',')),
            .wsStar, .strCI ("address"), .wsPlus, .wcStar, .opt (.chr (',')),
            .wsStar, .strCI ("uint256"), .wsPlus, .wcStar, .wsStar, .chr (')'),
            .wsStar, .alt (.strCI ("external")) (.strCI ("public"))]

/-- The pattern
/function\s+balanceOf\s*\(\s*address\s+\w*\s*\)\s*(?:external|public)\s*view\s*returns?\s*\(\s*uint256\s*\)/i. -/
def balanceOfPat : Regex :=
  .catList [.strCI ("function"), .wsPlus, .strCI ("balanceOf"), .wsStar, .chr ('('),
            .wsStar, .strCI ("address"), .wsPlus, .wcStar, .wsStar, .chr (')'),
            .wsStar, .alt (.strCI ("external")) (.strCI ("public")),
            .wsStar, .strCI ("view"), .wsStar, .strCI ("return"), .opt (.chrCI ('s')),
            .wsStar, .chr ('('), .wsStar, .strCI ("uint256"), .wsStar, .chr (')')]

/-- The pattern
/function\s+approve\s*\(\s*address\s+\w*,?\s*uint256\s+\w*\s*\)\s*(?:external|public)/i. -/
def approvePat : Regex :=
  .catList [.strCI ("function"), .wsPlus, .strCI ("approve"), .wsStar, .chr ('('),
            .wsStar, .strCI ("address"), .wsPlus, .wcStar, .opt (.chr (',')),
            .wsStar, .strCI ("uint256"), .wsPlus, .wcStar, .wsStar, .chr (')'),
            .wsStar, .alt (.strCI ("external")) (.strCI ("public"))]

/-- The pattern
/function\s+allowance\s*\(\s*address\s+\w*,?\s*address\s+\w*\s*\)\s*(?:external|public)\s*view\s*returns?\s*\(\s*uint256\s*\)/i. -/
def allowancePat : Regex :=
  .catList [.strCI ("function"), .wsPlus, .strCI ("allowance"), .wsStar, .chr ('('),
            .wsStar, .strCI ("address"), .wsPlus, .wcStar, .opt (.chr (',')),
            .wsStar, .strCI ("address"), .wsPlus, .wcStar, .wsStar, .chr (')'),
            .wsStar, .alt (.strCI ("external")) (.strCI ("public")),
            .wsStar, .strCI ("view"), .wsStar, .strCI ("return"), .opt (.chrCI ('s')),
            .wsStar, .chr ('('), .wsStar, .strCI ("uint256"), .wsStar, .chr (')')]

/-- The pattern
/function\s+totalSupply\s*\(\s*\)\s*(?:external|public)\s*view\s*returns?\s*\(\s*uint256\s*\)/i. -/
def totalSupplyPat : Regex :=
  .catList [.strCI ("function"), .wsPlus, .strCI ("totalSupply"), .wsStar, .chr ('('),
            .wsStar, .chr (')'),
            .wsStar, .alt (.strCI ("external")) (.strCI ("public")),
            .wsStar, .strCI ("view"), .wsStar, .strCI ("return"), .opt (.chrCI ('s')),
            .wsStar, .chr ('('), .wsStar, .strCI ("uint256"), .wsStar, .chr (')')]

/-- The pattern
/event\s+Transfer\s*\(\s*address\s+indexed\s+\w*,?\s*address\s+indexed\s+\w*,?\s*uint256\s+\w*\s*\)/i. -/
def transferEventPat : Regex :=
  .catList [.strCI ("event"), .wsPlus, .strCI ("Transfer"), .wsStar, .chr ('('),
            .wsStar, .strCI ("address"), .wsPlus, .strCI ("indexed"), .wsPlus, .wcStar, .opt (.chr (',')),
            .wsStar, .strCI ("address"), .wsPlus, .strCI ("indexed"), .wsPlus, .wcStar, .opt (.chr (',')),
            .wsStar, .strCI ("uint256"), .wsPlus, .wcStar, .wsStar, .chr (')')]

/-- The pattern
/event\s+Approval\s*\(\s*address\s+indexed\s+\w*,?\s*address\s+indexed\s+\w*,?\s*uint256\s+\w*\s*\)/i. -/
def approvalEventPat : Regex :=
  .catList [.strCI ("event"), .wsPlus, .strCI ("Approval"), .wsStar, .chr ('('),
            .wsStar, .strCI ("address"), .wsPlus, .strCI ("indexed"), .wsPlus, .wcStar, .opt (.chr (',')),
            .wsStar, .strCI ("address"), .wsPlus, .strCI ("indexed"), .wsPlus, .wcStar, .opt (.chr (',')),
            .wsStar, .strCI ("uint256"), .wsPlus, .wcStar, .wsStar, .chr (')')]

/-- The list `erc20FunctionPatterns` of code-analyzer.ts. -/
def erc20FunctionPatterns : List Regex :=
  [transferPat, transferFromPat, balanceOfPat, approvePat, allowancePat, totalSupplyPat]

/-- The list `erc20EventPatterns` of code-analyzer.ts. -/
def erc20EventPatterns : List Regex := [transferEventPat, approvalEventPat]

/-- The `cleanCode` preprocessing of `isTokenContract`: strip block
comments, then line comments, then squash double-quoted and
single-quoted string literals. -/
def cleanSource (s : String) : List Char :=
  squashQuoted squote (squashQuoted dquote (stripLineComments (stripBlockComments s.data)))

/-- Number of canonical token function signatures matching the cleaned
source. -/
def tokenFunctionCount (l : List Char) : ℕ :=
  (erc20FunctionPatterns.filter fun p => p.found l).length

/-- Number of canonical token events matching the cleaned source. -/
def tokenEventCount (l : List Char) : ℕ :=
  (erc20EventPatterns.filter fun p => p.found l).length

/-- `isTokenContract` of code-analyzer.ts. -/
def isTokenContract (sourceCode : String) : Bool :=
  if sourceCode = "" then false
  else
    let cleanCode := cleanSource sourceCode
    if erc20InterfacePattern.found cleanCode then true
    else decide (tokenFunctionCount cleanCode ≥ 4) && decide (tokenEventCount cleanCode ≥ 1)

/-! Data model of types.ts and the risk aggregation of
risk-calculator.ts.  Numbers are exact rationals; the optional
string-encoded oracle fields keep their string type. -/

/-- The `ContractData` interface of types.ts.  `creationDate` is a
timestamp in milliseconds; it is carried but never read by the risk
functions. -/
structure ContractData where
  isContract : Bool
  verified : Bool
  contractName : String
  creationDate : ℤ
  protocolAge : ℚ
  compilerVersion : String
  optimizationEnabled : Bool
  sourceCode : String
  hasSelfDestruct : Bool
  hasDelegateCall : Bool
  hasUncheckedMath : Bool
  hasReentrancyRisk : Bool
  hasAccessControl : Bool
  hasPausable : Bool
  criticalVulnerabilities : List String
  majorRisks : List String
  minorRisks : List String
deriving DecidableEq

/-- The `GoPlusTokenData` interface of types.ts: all fields optional,
string-encoded. -/
structure GoPlusTokenData where
  is_honeypot : Option String := none
  is_blacklisted : Option String := none
  is_proxy : Option String := none
  is_mintable : Option String := none
  is_open_source : Option String := none
  is_whitelisted : Option String := none
  is_anti_whale : Option String := none
  is_trading_enabled : Option String := none
  buy_tax : Option String := none
  sell_tax : Option String := none
  cannot_sell_all : Option String := none
  is_scam : Option String := none
  is_high_risk : Option String := none
deriving DecidableEq

/-- The `tokenSecurity` object built by `calculateRiskMetrics` when the
input is classified as a token. -/
structure TokenSecurityInfo where
  isHoneypot : Bool
  isBlacklisted : Bool
  isProxy : Bool
  isMintable : Bool
  isWhitelisted : Bool
  isAntiWhale : Bool
  isTradingEnabled : Bool
  buyTax : JsNum
  sellTax : JsNum
  cannotSellAll : Bool
  isScam : Bool
  isHighRisk : Bool
deriving DecidableEq

/-- The `details` object returned by `calculateRiskMetrics`. -/
structure RiskDetails where
  contractVerified : Bool
  codeQuality : ℚ
  securityIssues : List String
  compilerVersion : String
  optimizationEnabled : Bool
  isContract : Bool
  isToken : Bool
  tokenSecurity : Option TokenSecurityInfo
deriving DecidableEq

/-- The `RiskMetrics` value returned by `calculateRiskMetrics`. -/
structure RiskMetrics where
  contractRisk : ℚ
  securityRisk : ℚ
  overallRisk : ℚ
  details : RiskDetails
deriving DecidableEq

/-- Marker test used by `calculateContractRisk` for analysis failures:
some critical entry includes the text API access limited or the text
analysis failed. -/
def hasApiLimitMark (l : List String) : Bool :=
  l.any fun v => jsIncludes v ("API access limited") || jsIncludes v ("analysis failed")

/-- `calculateContractRisk` of risk-calculator.ts. -/
def calculateContractRisk (data : ContractData) : ℚ :=
  if ! data.verified then
    if hasApiLimitMark data.criticalVulnerabilities then
      minQ (0.2 + 0.3) 0.7
    else
      minQ (0.2 + 0.4) 1.0
  else
    let riskScore : ℚ :=
      (if data.criticalVulnerabilities.length > 0 then
        minQ ((data.criticalVulnerabilities.length : ℚ) * 0.2) 0.4 else 0) +
      (if data.majorRisks.length > 0 then
        minQ ((data.majorRisks.length : ℚ) * 0.125) 0.25 else 0) +
      (if data.minorRisks.length > 0 then
        minQ ((data.minorRisks.length : ℚ) * 0.025) 0.05 else 0)
    minQ riskScore 1.0

/-- `calculateAgeFactor` of risk-calculator.ts. -/
def calculateAgeFactor (ageInYears : ℚ) : ℚ :=
  if ageInYears < 0.08 then 0.8
  else if ageInYears < 0.5 then 0.4
  else if ageInYears < 1 then 0.2
  else if ageInYears < 2 then 0.1
  else 0.0

/-- One accumulation step of the weighted-risk forEach loops in
`calculateSecurityRisk`. -/
def riskStep (acc : ℚ) (r : Bool × ℚ) : ℚ := if r.1 then acc + r.2 else acc

/-- `calculateSecurityRisk` of risk-calculator.ts. -/
def calculateSecurityRisk (data : ContractData) (goPlusData : GoPlusTokenData) (isToken : Bool) : ℚ :=
  let securityRisks : List (Bool × ℚ) :=
    [(data.hasSelfDestruct, 0.15),
     (data.hasDelegateCall, 0.12),
     (data.hasUncheckedMath, 0.08),
     (data.hasReentrancyRisk, 0.2),
     (! data.hasAccessControl, 0.1),
     (! data.hasPausable, 0.05)]
  let base := securityRisks.foldl riskStep 0
  let securityScore :=
    if isToken then
      let tokenRisks : List (Bool × ℚ) :=
        [(goPlusData.is_honeypot == some ("1"), 0.3),
         (goPlusData.is_blacklisted == some ("1"), 0.25),
         (goPlusData.is_scam == some ("1"), 0.3),
         (goPlusData.is_high_risk == some ("1"), 0.2),
         (goPlusData.cannot_sell_all == some ("1"), 0.15),
         ((parseFloat (jsOrElse goPlusData.buy_tax ("0"))).gtNum 20, 0.1),
         ((parseFloat (jsOrElse goPlusData.sell_tax ("0"))).gtNum 20, 0.1)]
      tokenRisks.foldl riskStep base
    else base
  minQ securityScore 1.0

/-- `calculateCodeQuality` of risk-calculator.ts. -/
def calculateCodeQuality (data : ContractData) : ℚ :=
  if ! data.verified then 0.1
  else
    let qualityFactors : List Bool :=
      [data.optimizationEnabled,
       jsIncludes data.compilerVersion ("0.8"),
       data.hasAccessControl,
       data.hasPausable,
       ! data.hasSelfDestruct,
       ! data.hasDelegateCall]
    let qualityScore : ℚ := ((qualityFactors.filter id).length : ℚ) / (qualityFactors.length : ℚ)
    maxQ 0.4 qualityScore

/-- `getSecurityIssues` of risk-calculator.ts: the sequential pushes
rendered as list concatenation in push order.  The `address` parameter
exists in the source signature but is never read. -/
def getSecurityIssues (data : ContractData) (goPlusData : GoPlusTokenData) (isToken : Bool)
    (address : Option String) : List String :=
  (if ! data.verified then
    ["Contract not verified - source code unavailable for analysis"] else []) ++
  data.criticalVulnerabilities ++
  data.majorRisks ++
  (if data.hasSelfDestruct then ["Contract contains selfdestruct functionality"] else []) ++
  (if data.hasDelegateCall then ["Contract uses delegatecall"] else []) ++
  (if data.hasReentrancyRisk then ["Potential reentrancy vulnerability"] else []) ++
  (if ! data.hasAccessControl then ["No access control mechanisms found"] else []) ++
  (if isToken then
    (if goPlusData.is_honeypot == some ("1") then ["Token is a honeypot - cannot sell"] else []) ++
    (if goPlusData.is_blacklisted == some ("1") then ["Token is blacklisted"] else []) ++
    (if goPlusData.is_scam == some ("1") then ["Token is flagged as a scam"] else []) ++
    (if goPlusData.is_high_risk == some ("1") then ["Token is considered high risk"] else []) ++
    (if goPlusData.cannot_sell_all == some ("1") then ["Cannot sell all tokens at once"] else []) ++
    (if (parseFloat (jsOrElse goPlusData.buy_tax ("0"))).gtNum 20 then
      ["High buy tax: " ++ jsShow goPlusData.buy_tax ++ "%"] else []) ++
    (if (parseFloat (jsOrElse goPlusData.sell_tax ("0"))).gtNum 20 then
      ["High sell tax: " ++ jsShow goPlusData.sell_tax ++ "%"] else []) ++
    (if goPlusData.is_proxy == some ("1") then ["Contract is a proxy - can be upgraded"] else []) ++
    (if goPlusData.is_mintable == some ("1") then ["Token is mintable - supply can increase"] else [])
  else []) ++
  data.minorRisks

/-- `calculateRiskMetrics` of risk-calculator.ts. -/
def calculateRiskMetrics (contractData : ContractData) (goPlusData : GoPlusTokenData)
    (isToken : Bool) (address : Option String) : RiskMetrics :=
  let contractRisk := calculateContractRisk contractData
  let securityRisk := calculateSecurityRisk contractData goPlusData isToken
  { contractRisk := contractRisk
    securityRisk := securityRisk
    overallRisk := (contractRisk + securityRisk) / 2
    details :=
      { contractVerified := contractData.verified
        codeQuality := calculateCodeQuality contractData
        securityIssues := getSecurityIssues contractData goPlusData isToken address
        compilerVersion :=
          if contractData.compilerVersion = "" then "unknown" else contractData.compilerVersion
        optimizationEnabled := contractData.optimizationEnabled
        isContract := true
        isToken := isToken
        tokenSecurity :=
          if isToken then
            some
              { isHoneypot := goPlusData.is_honeypot == some ("1")
                isBlacklisted := goPlusData.is_blacklisted == some ("1")
                isProxy := goPlusData.is_proxy == some ("1")
                isMintable := goPlusData.is_mintable == some ("1")
                isWhitelisted := goPlusData.is_whitelisted == some ("1")
                isAntiWhale := goPlusData.is_anti_whale == some ("1")
                isTradingEnabled := goPlusData.is_trading_enabled == some ("1")
                buyTax := parseFloat (jsOrElse goPlusData.buy_tax ("0"))
                sellTax := parseFloat (jsOrElse goPlusData.sell_tax ("0"))
                cannotSellAll := goPlusData.cannot_sell_all == some ("1")
                isScam := goPlusData.is_scam == some ("1")
                isHighRisk := goPlusData.is_high_risk == some ("1") }
          else none } }

/-- The composition performed by `getContractData` of
ethereum-client.ts once the network fields are fetched: the pattern
analysis of the source text is spread into the `ContractData` record.
Network-derived fields are fixed to their neutral defaults. -/
def contractDataFromSource (verified : Bool) (src : String) : ContractData :=
  let a := analyzeSolidityCode src
  { isContract := true
    verified := verified
    contractName := "Contract"
    creationDate := 0
    protocolAge := 0
    compilerVersion := ""
    optimizationEnabled := false
    sourceCode := src
    hasSelfDestruct := a.hasSelfDestruct
    hasDelegateCall := a.hasDelegateCall
    hasUncheckedMath := a.hasUncheckedMath
    hasReentrancyRisk := a.hasReentrancyRisk
    hasAccessControl := a.hasAccessControl
    hasPausable := a.hasPausable
    criticalVulnerabilities := a.criticalVulnerabilities
    majorRisks := a.majorRisks
    minorRisks := a.minorRisks }

/-- The empty oracle record: every optional field absent, as delivered by
the GoPlus client fallback. -/
def emptyGoPlusData : GoPlusTokenData := {}

/-! Specification-side formulas, rendered from the claim texts, to be
compared with the source-translated functions. -/

/-- The contractRisk formula exactly as the specification states it:
unverified with an analysis-failure marker gives min(0.2 + 0.3, 0.7);
unverified otherwise gives min(0.2 + 0.4, 1.0); verified gives the three
capped weighted counts, capped at 1.0. -/
def contractRiskSpec (d : ContractData) : ℚ :=
  if ! d.verified then
    if hasApiLimitMark d.criticalVulnerabilities then minQ (0.2 + 0.3) 0.7
    else minQ (0.2 + 0.4) 1.0
  else
    minQ (minQ (0.2 * (d.criticalVulnerabilities.length : ℚ)) 0.4 +
         minQ (0.125 * (d.majorRisks.length : ℚ)) 0.25 +
         minQ (0.025 * (d.minorRisks.length : ℚ)) 0.05) 1.0

/-- The securityRisk formula exactly as the specification states it: a
flat sum of the per-flag weights, the oracle weights added only for a
token, capped at 1.0. -/
def securityRiskSpec (d : ContractData) (g : GoPlusTokenData) (isToken : Bool) : ℚ :=
  minQ
    (((if d.hasSelfDestruct then (0.15 : ℚ) else 0) +
      (if d.hasDelegateCall then (0.12 : ℚ) else 0) +
      (if d.hasUncheckedMath then (0.08 : ℚ) else 0) +
      (if d.hasReentrancyRisk then (0.2 : ℚ) else 0) +
      (if ! d.hasAccessControl then (0.1 : ℚ) else 0) +
      (if ! d.hasPausable then (0.05 : ℚ) else 0)) +
     (if isToken then
        (if g.is_honeypot == some ("1") then (0.3 : ℚ) else 0) +
        (if g.is_blacklisted == some ("1") then (0.25 : ℚ) else 0) +
        (if g.is_scam == some ("1") then (0.3 : ℚ) else 0) +
        (if g.is_high_risk == some ("1") then (0.2 : ℚ) else 0) +
        (if g.cannot_sell_all == some ("1") then (0.15 : ℚ) else 0) +
        (if (parseFloat (jsOrElse g.buy_tax ("0"))).gtNum 20 then (0.1 : ℚ) else 0) +
        (if (parseFloat (jsOrElse g.sell_tax ("0"))).gtNum 20 then (0.1 : ℚ) else 0)
      else 0))
    1.0

/-- The uncapped weighted sum of the verified branch of
`calculateContractRisk`. -/
def verifiedRiskSum (d : ContractData) : ℚ :=
  (if d.criticalVulnerabilities.length > 0 then
    minQ ((d.criticalVulnerabilities.length : ℚ) * 0.2) 0.4 else 0) +
  (if d.majorRisks.length > 0 then
    minQ ((d.majorRisks.length : ℚ) * 0.125) 0.25 else 0) +
  (if d.minorRisks.length > 0 then
    minQ ((d.minorRisks.length : ℚ) * 0.025) 0.05 else 0)

/-- A source text with canonical implementations of all six ERC-20
functions plus a Transfer event. -/
def erc20FullSource : String :=
"function transfer(address to, uint256 amount) public returns (bool) \x7b \x7d
function transferFrom(address from, address to, uint256 amount) public returns (bool) \x7b \x7d
function balanceOf(address account) public view returns (uint256) \x7b \x7d
function approve(address spender, uint256 amount) public returns (bool) \x7b \x7d
function allowance(address owner, address spender) public view returns (uint256) \x7b \x7d
function totalSupply() public view returns (uint256) \x7b \x7d
event Transfer(address indexed from, address indexed to, uint256 value)"

/-- A source text with only three of the six ERC-20 functions and no
token-interface declaration. -/
def erc20PartialSource : String :=
"function transfer(address to, uint256 amount) public returns (bool) \x7b \x7d
function balanceOf(address account) public view returns (uint256) \x7b \x7d
function approve(address spender, uint256 amount) public returns (bool) \x7b \x7d
event Transfer(address indexed from, address indexed to, uint256 value)"

/-- The minimal source text exhibiting the C7 scenario: a selfdestruct
call, no access control, and nothing that populates the vulnerability
lists or the other flags. -/
def selfdestructOnlySource : String := "selfdestruct("

/-- The four traditional flag-derived sentences of `getSecurityIssues`,
in push order. -/
def tradFlagIssues (d : ContractData) : List String :=
  (if d.hasSelfDestruct then ["Contract contains selfdestruct functionality"] else []) ++
  (if d.hasDelegateCall then ["Contract uses delegatecall"] else []) ++
  (if d.hasReentrancyRisk then ["Potential reentrancy vulnerability"] else []) ++
  (if ! d.hasAccessControl then ["No access control mechanisms found"] else [])

/-- The count of true traditional flags among the four listed in
`getSecurityIssues`. -/
def tradFlagCount (d : ContractData) : ℕ :=
  (if d.hasSelfDestruct then 1 else 0) + (if d.hasDelegateCall then 1 else 0) +
  (if d.hasReentrancyRisk then 1 else 0) + (if ! d.hasAccessControl then 1 else 0)

/-- The token-derived sentences of `getSecurityIssues`, in push order. -/
def tokenFlagIssues (g : GoPlusTokenData) : List String :=
  (if g.is_honeypot == some ("1") then ["Token is a honeypot - cannot sell"] else []) ++
  (if g.is_blacklisted == some ("1") then ["Token is blacklisted"] else []) ++
  (if g.is_scam == some ("1") then ["Token is flagged as a scam"] else []) ++
  (if g.is_high_risk == some ("1") then ["Token is considered high risk"] else []) ++
  (if g.cannot_sell_all == some ("1") then ["Cannot sell all tokens at once"] else []) ++
  (if (parseFloat (jsOrElse g.buy_tax ("0"))).gtNum 20 then
    ["High buy tax: " ++ jsShow g.buy_tax ++ "%"] else []) ++
  (if (parseFloat (jsOrElse g.sell_tax ("0"))).gtNum 20 then
    ["High sell tax: " ++ jsShow g.sell_tax ++ "%"] else []) ++
  (if g.is_proxy == some ("1") then ["Contract is a proxy - can be upgraded"] else []) ++
  (if g.is_mintable == some ("1") then ["Token is mintable - supply can increase"] else [])

/-- The number of token-derived sentences of `getSecurityIssues`. -/
def tokenFlagCount (g : GoPlusTokenData) : ℕ :=
  (if g.is_honeypot == some ("1") then 1 else 0) +
  (if g.is_blacklisted == some ("1") then 1 else 0) +
  (if g.is_scam == some ("1") then 1 else 0) +
  (if g.is_high_risk == some ("1") then 1 else 0) +
  (if g.cannot_sell_all == some ("1") then 1 else 0) +
  (if (parseFloat (jsOrElse g.buy_tax ("0"))).gtNum 20 then 1 else 0) +
  (if (parseFloat (jsOrElse g.sell_tax ("0"))).gtNum 20 then 1 else 0) +
  (if g.is_proxy == some ("1") then 1 else 0) +
  (if g.is_mintable == some ("1") then 1 else 0)

/-- An optional oracle tax field carrying no signal: either absent, or a
string on which the `parseFloat` boundary yields NaN (a malformed,
non-numeric value). -/
def taxNoSignal (o : Option String) : Prop :=
  o = none ∨ parseFloat (jsOrElse o ("0")) = JsNum.nan

/-! Helper lemmas about the accumulation loops and capped terms. -/

theorem minQ_eq_min (a b : ℚ) : minQ a b = min a b := (min_def a b).symm

theorem maxQ_eq_max (a b : ℚ) : maxQ a b = max a b := (max_def a b).symm



theorem foldl_riskStep_eq (l : List (Bool × ℚ)) :
    ∀ a : ℚ, l.foldl riskStep a = a + (l.map fun p => if p.1 then p.2 else 0).sum := by
  induction l with
  | nil => intro a; simp
  | cons p t ih =>
    intro a
    simp only [List.foldl_cons, List.map_cons, List.sum_cons, ih]
    unfold riskStep
    split
    · ring
    · ring

theorem foldl_riskStep_nonneg (l : List (Bool × ℚ)) (h : ∀ p ∈ l, 0 ≤ p.2) :
    ∀ a : ℚ, 0 ≤ a → 0 ≤ l.foldl riskStep a := by
  induction l with
  | nil => intro a ha; simpa using ha
  | cons p t ih =>
    intro a ha
    simp only [List.foldl_cons]
    apply ih fun q hq => h q (List.mem_cons_of_mem _ hq)
    unfold riskStep
    split
    · exact add_nonneg ha (h p (List.mem_cons_self _ _))
    · exact ha

theorem capTerm_le (n : ℕ) (w cap : ℚ) (hc : 0 ≤ cap) :
    (if n > 0 then minQ ((n : ℚ) * w) cap else 0) ≤ cap := by
  simp only [minQ_eq_min]
  split
  · exact min_le_right _ _
  · exact hc

theorem capTerm_nonneg (n : ℕ) (w cap : ℚ) (hw : 0 ≤ w) (hc : 0 ≤ cap) :
    0 ≤ (if n > 0 then minQ ((n : ℚ) * w) cap else 0) := by
  simp only [minQ_eq_min]
  split
  · exact le_min (mul_nonneg (Nat.cast_nonneg n) hw) hc
  · exact le_refl 0

theorem guardedMin (n : ℕ) (w cap : ℚ) (hc : 0 ≤ cap) :
    (if n > 0 then minQ ((n : ℚ) * w) cap else 0) = minQ (w * (n : ℚ)) cap := by
  simp only [minQ_eq_min]
  split
  · rw [mul_comm]
  · rename_i h
    have hn : n = 0 := by omega
    subst hn
    simp [min_eq_left hc]

theorem calculateContractRisk_unverified (d : ContractData) (h : d.verified = false) :
    calculateContractRisk d =
      if hasApiLimitMark d.criticalVulnerabilities then 0.5 else 0.6 := by
  unfold calculateContractRisk
  rw [h]
  simp only [Bool.not_false, if_true]
  split
  · norm_num [minQ]
  · norm_num [minQ]

theorem calculateContractRisk_verified (d : ContractData) (h : d.verified = true) :
    calculateContractRisk d = verifiedRiskSum d ∧ verifiedRiskSum d ≤ 0.7 := by
  have h1 := capTerm_le d.criticalVulnerabilities.length 0.2 0.4 (by norm_num)
  have h2 := capTerm_le d.majorRisks.length 0.125 0.25 (by norm_num)
  have h3 := capTerm_le d.minorRisks.length 0.025 0.05 (by norm_num)
  have hsum : verifiedRiskSum d ≤ 0.7 := by
    unfold verifiedRiskSum
    linarith
  refine ⟨?_, hsum⟩
  unfold calculateContractRisk
  rw [h]
  simp only [Bool.not_true, Bool.false_eq_true, if_false]
  rw [minQ_eq_min]
  exact min_eq_left (by unfold verifiedRiskSum at hsum; linarith)

/-! Theorems settling the specification claims, in claim order. -/

/-- C1: for every contract record, oracle record and token flag, the
`RiskMetrics` value returned by `calculateRiskMetrics` has `overallRisk`
exactly equal to the arithmetic mean of the `contractRisk` and
`securityRisk` subscores returned in the same value. -/
theorem overallRisk_arith_mean (cd : ContractData) (g : GoPlusTokenData) (isToken : Bool)
    (address : Option String) :
    (calculateRiskMetrics cd g isToken address).overallRisk =
      ((calculateRiskMetrics cd g isToken address).contractRisk +
       (calculateRiskMetrics cd g isToken address).securityRisk) / 2 := rfl

/-- C2: for every combination of inputs, `calculateContractRisk` and
`calculateSecurityRisk` both return values in the closed interval
[0, 1]. -/
theorem risk_subscores_in_unit_interval (d : ContractData) (g : GoPlusTokenData) (isToken : Bool) :
    (0 ≤ calculateContractRisk d ∧ calculateContractRisk d ≤ 1) ∧
    (0 ≤ calculateSecurityRisk d g isToken ∧ calculateSecurityRisk d g isToken ≤ 1) := by
  constructor
  · cases hv : d.verified
    · rw [calculateContractRisk_unverified d hv]
      split
      · norm_num
      · norm_num
    · obtain ⟨heq, hle⟩ := calculateContractRisk_verified d hv
      rw [heq]
      have h1 := capTerm_nonneg d.criticalVulnerabilities.length 0.2 0.4 (by norm_num) (by norm_num)
      have h2 := capTerm_nonneg d.majorRisks.length 0.125 0.25 (by norm_num) (by norm_num)
      have h3 := capTerm_nonneg d.minorRisks.length 0.025 0.05 (by norm_num) (by norm_num)
      constructor
      · unfold verifiedRiskSum
        linarith
      · linarith
  · simp only [calculateSecurityRisk, minQ_eq_min]
    refine ⟨le_min ?_ (by norm_num), le_trans (min_le_right _ _) (by norm_num)⟩
    split
    · apply foldl_riskStep_nonneg
      · intro p hp
        fin_cases hp <;> norm_num
      · apply foldl_riskStep_nonneg _ _ 0 (le_refl 0)
        intro p hp
        fin_cases hp <;> norm_num
    · apply foldl_riskStep_nonneg _ _ 0 (le_refl 0)
      intro p hp
      fin_cases hp <;> norm_num

/-- C3: `calculateContractRisk` computes exactly the branch formula the
specification states: min(0.2 + 0.3, 0.7) for unverified input with an
analysis-failure marker, min(0.2 + 0.4, 1.0) for other unverified
input, and the three capped weighted severity counts, capped at 1.0, for
verified input. -/
theorem contractRisk_matches_spec_formula (d : ContractData) :
    calculateContractRisk d = contractRiskSpec d := by
  unfold calculateContractRisk contractRiskSpec
  split
  · rfl
  · dsimp only
    rw [guardedMin _ _ _ (by norm_num), guardedMin _ _ _ (by norm_num),
        guardedMin _ _ _ (by norm_num)]

/-- C4: `calculateSecurityRisk` computes exactly the flat weighted sum
the specification states: 0.15 for selfdestruct, 0.12 for delegatecall,
0.08 for unchecked math, 0.20 for reentrancy, 0.10 for missing access
control, 0.05 for missing pausability, plus, for tokens only, 0.30
honeypot, 0.25 blacklisted, 0.30 scam, 0.20 high risk, 0.15
cannot-sell-all and 0.10 for each tax above 20, capped at 1.0. -/
theorem securityRisk_matches_spec_formula (d : ContractData) (g : GoPlusTokenData)
    (isToken : Bool) :
    calculateSecurityRisk d g isToken = securityRiskSpec d g isToken := by
  simp only [calculateSecurityRisk, securityRiskSpec, foldl_riskStep_eq,
    List.map_cons, List.map_nil, List.sum_cons, List.sum_nil]
  cases isToken
  · simp only [Bool.false_eq_true, if_false]
    ring_nf
  · simp only [if_true]
    ring_nf

/-- C10: `calculateContractRisk` never exceeds 0.7: an unverified record
yields exactly 0.5 (with an analysis-failure marker) or 0.6, a verified
record yields the uncapped weighted sum, which is at most
0.4 + 0.25 + 0.05 = 0.7, so the 1.0 caps of both branches are never
reached. -/
theorem contractRisk_bounded_cap_unreachable (d : ContractData) :
    calculateContractRisk d =
      (if d.verified then verifiedRiskSum d
       else if hasApiLimitMark d.criticalVulnerabilities then 0.5 else 0.6) ∧
    calculateContractRisk d ≤ 0.7 := by
  cases hv : d.verified
  · rw [calculateContractRisk_unverified d hv]
    simp only [Bool.false_eq_true, if_false]
    refine ⟨trivial, ?_⟩
    split
    · norm_num
    · norm_num
  · obtain ⟨heq, hle⟩ := calculateContractRisk_verified d hv
    rw [heq]
    simp only [if_true]
    exact ⟨trivial, hle⟩

/-- C5: the pattern analyzer applied to the empty source string returns
all six flags false and all three severity lists empty. -/
theorem analyze_empty_source :
    (analyzeSolidityCode ("")).hasSelfDestruct = false ∧
    (analyzeSolidityCode ("")).hasDelegateCall = false ∧
    (analyzeSolidityCode ("")).hasUncheckedMath = false ∧
    (analyzeSolidityCode ("")).hasReentrancyRisk = false ∧
    (analyzeSolidityCode ("")).hasAccessControl = false ∧
    (analyzeSolidityCode ("")).hasPausable = false ∧
    (analyzeSolidityCode ("")).criticalVulnerabilities = [] ∧
    (analyzeSolidityCode ("")).majorRisks = [] ∧
    (analyzeSolidityCode ("")).minorRisks = [] := by
  decide

set_option maxRecDepth 200000 in
/-- C6: `isTokenContract` is false on empty input; otherwise, on the
source with comments and string literals stripped, it is true if the
token-interface pattern matches and otherwise true exactly when at least
4 of the 6 canonical function signatures and at least 1 of the 2
canonical events match; in particular it is true on a source with
canonical implementations of all six functions plus a Transfer event,
and false on a source with only three of the six functions. -/
theorem isTokenContract_characterization :
    isTokenContract ("") = false ∧
    (∀ s : String, isTokenContract s =
      if s = "" then false
      else
        if erc20InterfacePattern.found (cleanSource s) then true
        else decide (tokenFunctionCount (cleanSource s) ≥ 4) &&
             decide (tokenEventCount (cleanSource s) ≥ 1)) ∧
    isTokenContract erc20FullSource = true ∧
    isTokenContract erc20PartialSource = false := by
  refine ⟨rfl, fun s => rfl, ?_, ?_⟩
  · decide
  · decide

/-- Evaluation of the selfdestruct scenario pipeline for any source
whose analysis reports exactly a selfdestruct call with no other flag
and empty vulnerability lists. -/
theorem selfdestructScenarioEval (src : String)
    (h1 : (analyzeSolidityCode src).hasSelfDestruct = true)
    (h2 : (analyzeSolidityCode src).hasDelegateCall = false)
    (h3 : (analyzeSolidityCode src).hasUncheckedMath = false)
    (h4 : (analyzeSolidityCode src).hasReentrancyRisk = false)
    (h5 : (analyzeSolidityCode src).hasAccessControl = false)
    (h6 : (analyzeSolidityCode src).hasPausable = false)
    (h7 : (analyzeSolidityCode src).criticalVulnerabilities = [])
    (h8 : (analyzeSolidityCode src).majorRisks = [])
    (h9 : (analyzeSolidityCode src).minorRisks = []) :
    (calculateRiskMetrics (contractDataFromSource true src)
      emptyGoPlusData false none).securityRisk = 0.3 ∧
    (calculateRiskMetrics (contractDataFromSource true src)
      emptyGoPlusData false none).contractRisk = 0 ∧
    (calculateRiskMetrics (contractDataFromSource true src)
      emptyGoPlusData false none).overallRisk = 0.15 := by
  have hs : (calculateRiskMetrics (contractDataFromSource true src)
      emptyGoPlusData false none).securityRisk =
      calculateSecurityRisk (contractDataFromSource true src) emptyGoPlusData false := rfl
  have hc : (calculateRiskMetrics (contractDataFromSource true src)
      emptyGoPlusData false none).contractRisk =
      calculateContractRisk (contractDataFromSource true src) := rfl
  have ho : (calculateRiskMetrics (contractDataFromSource true src)
      emptyGoPlusData false none).overallRisk =
      (calculateContractRisk (contractDataFromSource true src) +
       calculateSecurityRisk (contractDataFromSource true src) emptyGoPlusData false) / 2 := rfl
  have hsec : calculateSecurityRisk (contractDataFromSource true src) emptyGoPlusData false = 0.3 := by
    simp only [calculateSecurityRisk, contractDataFromSource, h1, h2, h3, h4, h5, h6,
      List.foldl_cons, List.foldl_nil, riskStep, Bool.false_eq_true, if_false, if_true,
      Bool.not_false, Bool.not_true]
    norm_num [minQ]
  have hcon : calculateContractRisk (contractDataFromSource true src) = 0 := by
    simp only [calculateContractRisk, contractDataFromSource, h7, h8, h9,
      Bool.not_true, Bool.false_eq_true, if_false, List.length_nil]
    norm_num [minQ]
  refine ⟨?_, ?_, ?_⟩
  · rw [hs, hsec]
  · rw [hc, hcon]
  · rw [ho, hsec, hcon]
    norm_num

/-- C7 counterexample: the source selfdestruct( satisfies every
hypothesis of the claim (selfdestruct present, no access control, all
three vulnerability lists empty, verified, not a token), yet the
pipeline returns securityRisk 0.30 and overallRisk 0.15, not the claimed
0.25 and 0.125: the claim omits the 0.05 weight the code adds when the
source is not pausable. -/
theorem selfdestruct_scenario_counterexample :
    (analyzeSolidityCode selfdestructOnlySource).hasSelfDestruct = true ∧
    (analyzeSolidityCode selfdestructOnlySource).hasAccessControl = false ∧
    (analyzeSolidityCode selfdestructOnlySource).criticalVulnerabilities = [] ∧
    (analyzeSolidityCode selfdestructOnlySource).majorRisks = [] ∧
    (analyzeSolidityCode selfdestructOnlySource).minorRisks = [] ∧
    (calculateRiskMetrics (contractDataFromSource true selfdestructOnlySource)
      emptyGoPlusData false none).contractRisk = 0 ∧
    (calculateRiskMetrics (contractDataFromSource true selfdestructOnlySource)
      emptyGoPlusData false none).securityRisk ≠ 0.25 ∧
    (calculateRiskMetrics (contractDataFromSource true selfdestructOnlySource)
      emptyGoPlusData false none).overallRisk ≠ 0.125 := by
  have h := selfdestructScenarioEval selfdestructOnlySource (by decide) (by decide) (by decide)
    (by decide) (by decide) (by decide) (by decide) (by decide) (by decide)
  refine ⟨by decide, by decide, by decide, by decide, by decide, h.2.1, ?_, ?_⟩
  · rw [h.1]
    norm_num
  · rw [h.2.2]
    norm_num

/-- C7 amended: for every verified, non-token source whose analysis
reports a selfdestruct call, no access control, no delegatecall, no
unchecked math, no reentrancy risk, no pausability, and empty
vulnerability lists, the pipeline yields
securityRisk = 0.15 + 0.10 + 0.05 = 0.30 (the missing-pausability weight
also applies), contractRisk = 0 and overallRisk = 0.15. -/
theorem selfdestruct_scenario_amended (src : String)
    (h1 : (analyzeSolidityCode src).hasSelfDestruct = true)
    (h2 : (analyzeSolidityCode src).hasDelegateCall = false)
    (h3 : (analyzeSolidityCode src).hasUncheckedMath = false)
    (h4 : (analyzeSolidityCode src).hasReentrancyRisk = false)
    (h5 : (analyzeSolidityCode src).hasAccessControl = false)
    (h6 : (analyzeSolidityCode src).hasPausable = false)
    (h7 : (analyzeSolidityCode src).criticalVulnerabilities = [])
    (h8 : (analyzeSolidityCode src).majorRisks = [])
    (h9 : (analyzeSolidityCode src).minorRisks = []) :
    (calculateRiskMetrics (contractDataFromSource true src)
      emptyGoPlusData false none).securityRisk = 0.3 ∧
    (calculateRiskMetrics (contractDataFromSource true src)
      emptyGoPlusData false none).contractRisk = 0 ∧
    (calculateRiskMetrics (contractDataFromSource true src)
      emptyGoPlusData false none).overallRisk = 0.15 :=
  selfdestructScenarioEval src h1 h2 h3 h4 h5 h6 h7 h8 h9

theorem length_ite_single {c : Prop} [Decidable c] (x : String) :
    (if c then [x] else []).length = if c then 1 else 0 := by
  split <;> rfl

theorem length_ite_single_flip {c : Prop} [Decidable c] (x : String) :
    (if c then [] else [x]).length = if c then 0 else 1 := by
  split <;> rfl

/-- C7 witness: the amended scenario instantiated at the concrete source
selfdestruct(. -/
theorem selfdestruct_scenario_amended_witness :
    (calculateRiskMetrics (contractDataFromSource true selfdestructOnlySource)
      emptyGoPlusData false none).securityRisk = 0.3 ∧
    (calculateRiskMetrics (contractDataFromSource true selfdestructOnlySource)
      emptyGoPlusData false none).contractRisk = 0 ∧
    (calculateRiskMetrics (contractDataFromSource true selfdestructOnlySource)
      emptyGoPlusData false none).overallRisk = 0.15 :=
  selfdestruct_scenario_amended selfdestructOnlySource (by decide) (by decide) (by decide)
    (by decide) (by decide) (by decide) (by decide) (by decide) (by decide)

/-- C8: `getSecurityIssues` returns exactly the concatenation, in order,
of the unverified notice, the critical vulnerabilities, the major risks,
the traditional flag-derived sentences, the token-derived sentences (for
tokens only) and the minor risks, so its length is the sum the
specification states. -/
theorem securityIssues_order_and_length (d : ContractData) (g : GoPlusTokenData) (tok : Bool)
    (addr : Option String) :
    getSecurityIssues d g tok addr =
      (if d.verified then []
       else ["Contract not verified - source code unavailable for analysis"]) ++
      d.criticalVulnerabilities ++ d.majorRisks ++ tradFlagIssues d ++
      (if tok then tokenFlagIssues g else []) ++ d.minorRisks ∧
    (getSecurityIssues d g tok addr).length =
      (if d.verified then 0 else 1) + d.criticalVulnerabilities.length + d.majorRisks.length +
      tradFlagCount d + (if tok then tokenFlagCount g else 0) + d.minorRisks.length := by
  constructor
  · cases hv : d.verified <;> cases tok <;>
      simp [getSecurityIssues, tradFlagIssues, tokenFlagIssues, List.append_assoc, hv]
  · cases hv : d.verified <;> cases tok <;>
      simp [getSecurityIssues, tradFlagIssues, tokenFlagIssues, tradFlagCount, tokenFlagCount,
        List.length_append, length_ite_single, length_ite_single_flip, hv] <;>
      ring

theorem taxNoSignal_gt_false (o : Option String) (h : taxNoSignal o) :
    (parseFloat (jsOrElse o ("0"))).gtNum 20 = false := by
  rcases h with rfl | hn
  · with_unfolding_all decide
  · rw [hn]
    rfl

/-- C9: the risk aggregator is total by construction in this embedding,
and a GoPlus record whose flag fields are all absent and whose tax
fields are absent or malformed (non-numeric) behaves exactly like the
record with no flags set: it contributes nothing to securityRisk and
produces no securityIssues entries. -/
theorem goPlus_missing_fields_neutral (d : ContractData) (g : GoPlusTokenData) (tok : Bool)
    (addr : Option String)
    (hh : g.is_honeypot = none) (hb : g.is_blacklisted = none) (hs : g.is_scam = none)
    (hr : g.is_high_risk = none) (hc : g.cannot_sell_all = none)
    (hp : g.is_proxy = none) (hm : g.is_mintable = none)
    (hbt : taxNoSignal g.buy_tax) (hst : taxNoSignal g.sell_tax) :
    calculateSecurityRisk d g tok = calculateSecurityRisk d emptyGoPlusData tok ∧
    getSecurityIssues d g tok addr = getSecurityIssues d emptyGoPlusData tok addr ∧
    (calculateRiskMetrics d g tok addr).securityRisk =
      calculateSecurityRisk d emptyGoPlusData tok := by
  have hz : (parseFloat (jsOrElse (none : Option String) ("0"))).gtNum 20 = false := by
    with_unfolding_all decide
  have h1 : calculateSecurityRisk d g tok = calculateSecurityRisk d emptyGoPlusData tok := by
    simp [calculateSecurityRisk, emptyGoPlusData, hh, hb, hs, hr, hc,
      taxNoSignal_gt_false _ hbt, taxNoSignal_gt_false _ hst, hz]
  have h2 : getSecurityIssues d g tok addr = getSecurityIssues d emptyGoPlusData tok addr := by
    simp [getSecurityIssues, emptyGoPlusData, hh, hb, hs, hr, hc, hp, hm,
      taxNoSignal_gt_false _ hbt, taxNoSignal_gt_false _ hst, hz]
  exact ⟨h1, h2, h1⟩

/-- C9 witness: the neutrality theorem instantiated at a record with a
malformed buy tax, an absent sell tax and all flags absent. -/
theorem goPlus_missing_fields_neutral_witness :
    calculateSecurityRisk (contractDataFromSource true ("x"))
      { buy_tax := some ("abc") } true =
    calculateSecurityRisk (contractDataFromSource true ("x"))
      emptyGoPlusData true :=
  (goPlus_missing_fields_neutral (contractDataFromSource true ("x"))
    { buy_tax := some ("abc") } true none rfl rfl rfl rfl rfl rfl rfl
    (Or.inr (by with_unfolding_all decide)) (Or.inl rfl)).1

end RiskAnalyzer
